import Mathlib

/-!
Verification development for the live market signal scanner.

Shallow embedding of the repository's core:
  * `TechAnalysis` (sma / atr / detectPattern / detectSweep) from the live
    scanner script (src/unnamed/part_001);
  * `MarketManager` (addHistory / updateTick / onCandleClose) from the same
    script, with the per-symbol buffers modelled as total functions from
    symbol strings to candle lists (a JS object with default-empty lookup);
  * the OANDA streamer's tick aggregation core (`processLine`, PRICE branch)
    from src/oanda_streamer.js;
  * the webhook `SignalEngine.process` from src/unnamed/part_000.

Modelling conventions:
  * JS numbers are modelled as rationals (ℚ); `x.toFixed(5)` followed by
    `parseFloat` / `Number` is modelled by `round5` (round half up at the
    fifth decimal). NaN propagation of the underlying binary floats is
    outside the model.
  * Candle timestamps: the scanner stores ISO-8601 strings obtained from a
    millisecond clock and only ever compares them for equality or by their
    underlying date value; since `toISOString` is injective on milliseconds,
    times are modelled directly as milliseconds (`Nat`).
  * `Array.prototype.sort` with an ascending time comparator is modelled by
    `List.insertionSort` on the time order; no claim depends on the order of
    entries that share a timestamp.
-/

set_option maxRecDepth 1000000

attribute [local semireducible] Rat.add Rat.mul Rat.sub Rat.inv Rat.ofScientific

/-- A closed (or in-progress) M5 candle: the record with fields time, open,
high, low, close, with `time` in epoch milliseconds (models the ISO
string, injectively). -/
structure Candle where
  time : Nat
  open_ : ℚ
  high : ℚ
  low : ℚ
  close : ℚ
deriving DecidableEq

/-- Last `n` entries of a list (JS `slice(-n)`; the whole list if `n` is
larger than the length). -/
def takeLast {α : Type} (n : Nat) (l : List α) : List α :=
  l.drop (l.length - n)

/-- `TechAnalysis.sma`, guard included: arithmetic mean of the last
`period` values, `null` (here `none`) when fewer exist. -/
def sma (data : List ℚ) (period : Nat) : Option ℚ :=
  if data.length < period then none
  else some ((takeLast period data).sum / (period : ℚ))

/-- The guarded branch of `sma` as a total function; used inside
`onCandleClose`, whose 200-candle guard makes the `sma` guards moot. -/
def smaTotal (data : List ℚ) (period : Nat) : ℚ :=
  (takeLast period data).sum / (period : ℚ)

/-- True range of a candle against the previous close:
`max(high − low, |high − prevClose|, |low − prevClose|)`. -/
def trueRange (prevClose : ℚ) (c : Candle) : ℚ :=
  max (c.high - c.low) (max |c.high - prevClose| |c.low - prevClose|)

/-- The summation loop of `TechAnalysis.atr` over the last `period + 1`
candles: each of the last `period` candles contributes its true range
against its predecessor's close. -/
def atrTotal (candles : List Candle) (period : Nat) : ℚ :=
  let lastN := takeLast (period + 1) candles
  ((lastN.zip lastN.tail).map (fun pc => trueRange pc.1.close pc.2)).sum / (period : ℚ)

/-- `TechAnalysis.atr`, guard included. -/
def atr (candles : List Candle) (period : Nat) : Option ℚ :=
  if candles.length < period + 1 then none
  else some (atrTotal candles period)

/-- `TechAnalysis.detectPattern` on an explicit (previous, current) pair of
candles, exactly as in the source: pin bars first, then engulfing, with
the bullish tests checked before the bearish ones. -/
def detectPattern2 (prev current : Candle) : String :=
  let bodySize := |current.close - current.open_|
  let wickTop := current.high - max current.open_ current.close
  let wickBottom := min current.open_ current.close - current.low
  if (wickBottom > bodySize * 2 ∧ wickTop < bodySize) ∨
     (current.close > current.open_ ∧ prev.close < prev.open_ ∧
      current.close > prev.open_ ∧ current.open_ < prev.close) then "BULLISH"
  else if (wickTop > bodySize * 2 ∧ wickBottom < bodySize) ∨
     (current.close < current.open_ ∧ prev.close > prev.open_ ∧
      current.close < prev.close ∧ current.open_ > prev.open_) then "BEARISH"
  else "NEUTRAL"

/-- `TechAnalysis.detectPattern` on a candle list (reads the last two
entries; the source throws on shorter lists and is only called with at
least 200 candles, so the short case is mapped to NEUTRAL). -/
def detectPattern (candles : List Candle) : String :=
  match candles.reverse with
  | current :: prev :: _ => detectPattern2 prev current
  | _ => "NEUTRAL"

/-- `TechAnalysis.detectSweep`: the current candle against the max high /
min low of the preceding `lookback − 1` candles (JS `slice(-lookback, -1)`).
The source evaluates `Math.max()` of an empty window to −∞, making both
sweep tests fail; the empty-window case therefore returns NONE here. -/
def detectSweep (candles : List Candle) (lookback : Nat) : String :=
  match candles.getLast? with
  | none => "NONE"
  | some current =>
    match (candles.drop (candles.length - lookback)).dropLast with
    | [] => "NONE"
    | w :: ws =>
      let prevHigh := ws.foldl (fun m c => max m c.high) w.high
      let prevLow := ws.foldl (fun m c => min m c.low) w.low
      if current.high > prevHigh ∧ current.close < prevHigh then "BEARISH_SWEEP"
      else if current.low < prevLow ∧ current.close > prevLow then "BULLISH_SWEEP"
      else "NONE"

/-- `parseFloat(x.toFixed(5))`: rounding to five decimal places, modelled
as round half up. -/
def round5 (q : ℚ) : ℚ :=
  (⌊q * 100000 + 1 / 2⌋ : ℚ) / 100000

example : sma [1, 2, 3] 2 = some (5 / 2) := by decide
example : detectPattern2 ⟨0, 2, 2, 1, 1⟩ ⟨0, 1 / 2, 3, 1 / 2, 3⟩ = "BULLISH" := by decide
example : round5 (123 / 100000000) = 0 := by decide
example : atr [⟨0, 1, 1, 1, 1⟩, ⟨1, 1, 3, 1, 2⟩] 1 = some 2 := by decide

/-- A signal record as printed by `onCandleClose` and by the webhook
`SignalEngine.process`. -/
structure SignalOut where
  symbol : String
  timeframe : String
  trend : String
  signal : String
  entry_price : ℚ
  stop_loss : ℚ
  tp1 : ℚ
  tp2 : ℚ
  tp3 : ℚ
  strength_score : Nat
  reason : String
deriving DecidableEq

/-- The JSON object emitted once per closed candle: either one of the two
WAIT variants or a full signal. `waitData` is the insufficient-history
branch (no trend field); `waitSetup` is the no-valid-setup branch. -/
inductive CloseOutput where
  | waitData (symbol reason : String)
  | waitSetup (symbol trend reason : String)
  | sig (s : SignalOut)
deriving DecidableEq

/-- The BUY record built by `MarketManager.onCandleClose` (lines 209-228 of
the live scanner): stop distance ATR(14) × 1.5 below the entry, targets at
risk multiples 1.5 / 2 / 3, everything rounded to 5 decimals. `history` is
the symbol's buffer at call time (which, on the live path, already
contains `candle`, pushed just before the call). The `sma` / `atr` guards
are moot under onCandleClose's 200-candle check, so the total variants are
used, exactly as the source's values coincide there. -/
def buySignal (symbol : String) (history : List Candle) (candle : Candle) : SignalOut :=
  let slDist := atrTotal history 14 * 1.5
  let entry := candle.close
  let sl := entry - slDist
  let risk := |entry - sl|
  { symbol := symbol, timeframe := "M5", trend := "UPTREND", signal := "BUY",
    entry_price := round5 entry, stop_loss := round5 sl,
    tp1 := round5 (entry + risk * 1.5), tp2 := round5 (entry + risk * 2),
    tp3 := round5 (entry + risk * 3), strength_score := 85,
    reason := "Uptrend (Price > SMA200) + " ++
      (if detectPattern history = "BULLISH" then "Bullish Pattern" else "Liquidity Sweep") }

/-- The SELL record of `onCandleClose` (stop above entry, targets below). -/
def sellSignal (symbol : String) (history : List Candle) (candle : Candle) : SignalOut :=
  let slDist := atrTotal history 14 * 1.5
  let entry := candle.close
  let sl := entry + slDist
  let risk := |entry - sl|
  { symbol := symbol, timeframe := "M5", trend := "DOWNTREND", signal := "SELL",
    entry_price := round5 entry, stop_loss := round5 sl,
    tp1 := round5 (entry - risk * 1.5), tp2 := round5 (entry - risk * 2),
    tp3 := round5 (entry - risk * 3), strength_score := 85,
    reason := "Downtrend (Price < SMA200) + " ++
      (if detectPattern history = "BEARISH" then "Bearish Pattern" else "Liquidity Sweep") }

/-- The guard-and-dispatch body of `MarketManager.onCandleClose`. -/
def onCandleClose (symbol : String) (history : List Candle) (candle : Candle) :
    CloseOutput :=
  if history.length < 200 then
    CloseOutput.waitData symbol ("Not enough data (" ++ toString history.length ++ "/200)")
  else
    let closes := history.map Candle.close
    let sma20 := smaTotal closes 20
    let sma200 := smaTotal closes 200
    let pattern := detectPattern history
    let sweep := detectSweep history 10
    if sma20 > sma200 ∧ candle.close > sma200 then
      if pattern = "BULLISH" ∨ sweep = "BULLISH_SWEEP" then
        CloseOutput.sig (buySignal symbol history candle)
      else CloseOutput.waitSetup symbol "UP" "No valid reversal setup"
    else if sma20 < sma200 ∧ candle.close < sma200 then
      if pattern = "BEARISH" ∨ sweep = "BEARISH_SWEEP" then
        CloseOutput.sig (sellSignal symbol history candle)
      else CloseOutput.waitSetup symbol "DOWN" "No valid reversal setup"
    else CloseOutput.waitSetup symbol "FLAT" "No valid reversal setup"

/-- `MarketManager` state: per-symbol buffer of closed candles and
per-symbol active candle, modelled as total maps with default empty /
absent (the JS objects with default-undefined lookup; `initSymbol` is the
identity in this model). -/
structure MarketState where
  candles : String → List Candle
  activeCandle : String → Option Candle

/-- The empty `MarketManager` state (fresh `new MarketManager()`). -/
def initState : MarketState :=
  { candles := fun _ => [], activeCandle := fun _ => none }

/-- The 5-minute bucket start of a millisecond timestamp. Both
`updateTick`'s `setMinutes(floor(min / 5) * 5, 0, 0)` on a UTC date and
the OANDA streamer's `getM5BucketStart` compute this value. -/
def bucket5m (t : Nat) : Nat := t - t % 300000

/-- The ascending-time comparator passed to `Array.prototype.sort`. -/
def timeLE (a b : Candle) : Prop := a.time ≤ b.time

instance : DecidableRel timeLE := fun a b => Nat.decLe a.time b.time

instance : IsTotal Candle timeLE := ⟨fun a b => Nat.le_total a.time b.time⟩

instance : IsTrans Candle timeLE := ⟨fun _ _ _ => Nat.le_trans⟩

/-- The intermediate list built by `addHistory` before trimming: the
buffer, extended by every incoming candle whose time is not already
buffered (the dedup set is computed once, before the push loop), re-sorted
ascending by time. -/
def mergedSorted (st : MarketState) (symbol : String) (historyCandles : List Candle) :
    List Candle :=
  ((st.candles symbol) ++
    historyCandles.filter (fun c => c.time ∉ (st.candles symbol).map Candle.time)).insertionSort
    timeLE

/-- `MarketManager.addHistory(symbol, historyCandles)`: merge with dedup
against the current buffer, re-sort ascending by time, then keep the last
300 entries. -/
def addHistory (st : MarketState) (symbol : String) (historyCandles : List Candle) :
    MarketState :=
  let sorted := mergedSorted st symbol historyCandles
  let trimmed := if sorted.length > 300 then sorted.drop (sorted.length - 300) else sorted
  { st with candles := Function.update st.candles symbol trimmed }

/-- `MarketManager.updateTick(symbol, price, time)`. Returns the new state
together with the list of candle-close events fired (each event also runs
`onCandleClose`; the decision output is `onCandleClose` applied to the
event's symbol, the post-push buffer, and the closed candle). The close
branch fires whenever the active candle's bucket differs from the tick's
bucket in either direction, and pushes without any duplicate check. -/
def updateTick (st : MarketState) (symbol : String) (price : ℚ) (t : Nat) :
    MarketState × List (String × Candle) :=
  let m5Time := bucket5m t
  match st.activeCandle symbol with
  | some active =>
    if active.time ≠ m5Time then
      let pushed := st.candles symbol ++ [active]
      let buf := if pushed.length > 300 then pushed.tail else pushed
      ({ candles := Function.update st.candles symbol buf,
         activeCandle := Function.update st.activeCandle symbol
           (some ⟨m5Time, price, price, price, price⟩) },
       [(symbol, active)])
    else
      let a2 : Candle :=
        { active with close := price, high := max active.high price,
                      low := min active.low price }
      ({ st with activeCandle := Function.update st.activeCandle symbol (some a2) }, [])
  | none =>
      let fresh : Candle := ⟨m5Time, price, price, price, price⟩
      ({ st with activeCandle := Function.update st.activeCandle symbol (some fresh) }, [])

/-- The times of a symbol's buffered candles, in buffer order. -/
def bufTimes (st : MarketState) (symbol : String) : List Nat :=
  (st.candles symbol).map Candle.time

example :
    ((updateTick initState "S" 5 20).1.activeCandle "S") = some ⟨0, 5, 5, 5, 5⟩ := by
  decide
example :
    (addHistory initState "S" [⟨300000, 1, 1, 1, 1⟩, ⟨0, 2, 2, 2, 2⟩]).candles "S" =
      [⟨0, 2, 2, 2, 2⟩, ⟨300000, 1, 1, 1, 1⟩] := by
  decide

/-- The OANDA streamer's per-symbol in-progress candle:
`{open, high, low, close, bucketTime}` with `bucketTime` in ms. -/
structure OandaCandle where
  bucketTime : Nat
  open_ : ℚ
  high : ℚ
  low : ℚ
  close : ℚ
deriving DecidableEq

/-- A closed-candle JSON line emitted by the OANDA streamer. Its `time`
field is the ISO string of `bucketTime + M5_MS` (modelled in ms). -/
structure OandaOutput where
  symbol : String
  time : Nat
  open_ : ℚ
  high : ℚ
  low : ℚ
  close : ℚ
deriving DecidableEq

/-- The tick-processing core of the OANDA streamer's `processLine` (the
PRICE branch, after the mid price has been computed): close the active
candle when the tick's bucket is strictly later, otherwise merge the tick
into it; ticks from the same or an earlier bucket never close anything.
The JSON-parse and heartbeat handling around it carries no state. -/
def processPrice (activeCandles : String → Option OandaCandle) (symbol : String)
    (price : ℚ) (t : Nat) : (String → Option OandaCandle) × List OandaOutput :=
  let bucketStart := bucket5m t
  match activeCandles symbol with
  | some candle =>
    if bucketStart > candle.bucketTime then
      let out : OandaOutput :=
        ⟨symbol, candle.bucketTime + 300000, candle.open_, candle.high, candle.low,
          candle.close⟩
      (Function.update activeCandles symbol
        (some ⟨bucketStart, price, price, price, price⟩), [out])
    else
      let c2 : OandaCandle :=
        { candle with high := max candle.high price, low := min candle.low price,
                      close := price }
      (Function.update activeCandles symbol (some c2), [])
  | none =>
      (Function.update activeCandles symbol
        (some ⟨bucketStart, price, price, price, price⟩), [])

/-- A closed-kline JSON line emitted by the Binance streamer (the
`kline.x` branch of `startStream`): the output `time` is the ISO string of
the vendor kline's close-time field `kline.T` (modelled in ms). -/
structure Kline where
  s : String
  t : Nat
  T : Nat
  o : ℚ
  h : ℚ
  l : ℚ
  c : ℚ
deriving DecidableEq

/-- The Binance streamer's closed-kline output record. -/
def klineOutput (k : Kline) : OandaOutput :=
  ⟨k.s, k.T, k.o, k.h, k.l, k.c⟩

/-- A TradingView webhook payload, restricted to numeric price fields (the
source `parseFloat`s them; NaN propagation for malformed payloads is
outside this model). `sma20` / `sma200` are `none` when the raw field is
falsy; a parsed value of `0` is falsy at the use site and is handled
there. `reversal_signal` is true when the raw field is `true` or
`"true"`. -/
structure WebhookData where
  symbol : String
  close : ℚ
  high : ℚ
  low : ℚ
  sma20 : Option ℚ
  sma200 : Option ℚ
  trend : Option String
  reversal_signal : Bool
  pattern_name : Option String
deriving DecidableEq

/-- The webhook scanner's response: an error object, a WAIT object, or a
full signal. -/
inductive WebhookOutput where
  | error (msg : String)
  | wait (symbol reason : String)
  | sig (s : SignalOut)
deriving DecidableEq

/-- JS truthiness of a parsed numeric field: `null` and `0` are falsy. -/
def numTruthy (o : Option ℚ) : Option ℚ :=
  match o with
  | some v => if v = 0 then none else some v
  | none => none

/-- Substring test (JS `String.prototype.includes`): `pat` occurs in `s`
iff splitting on `pat` yields more than one part. -/
def strContains (s pat : String) : Bool :=
  (s.splitOn pat).length > 1

namespace SignalEngine

/-- Trend detection of `SignalEngine.process` (step 2): strict mode via the
SMAs when both are truthy, else the user-provided trend string; returns
the trend label and whether it is valid. -/
def trendOf (d : WebhookData) : String × Bool :=
  match numTruthy d.sma20, numTruthy d.sma200 with
  | some s20, some s200 =>
    if d.close > s200 ∧ s20 > s200 then ("UPTREND", true)
    else if d.close < s200 ∧ s20 < s200 then ("DOWNTREND", true)
    else ("FLAT", false)
  | _, _ =>
    match d.trend with
    | some ts =>
      if ts ≠ "" then
        if strContains ts.toUpper "BUY" ∨ strContains ts.toUpper "UP" then
          ("UPTREND", true)
        else if strContains ts.toUpper "SELL" ∨ strContains ts.toUpper "DOWN" then
          ("DOWNTREND", true)
        else ("FLAT", false)
      else ("FLAT", false)
    | none => ("FLAT", false)

/-- Step 5 of `SignalEngine.process`: the raw stop loss (low / high of the
signal candle, with the safety fallback when it is on the wrong side of
the entry). -/
def stopLossRaw (d : WebhookData) : ℚ :=
  if (trendOf d).1 = "UPTREND" then
    if d.low ≥ d.close then d.close * 0.9995 else d.low
  else
    if d.high ≤ d.close then d.close * 1.0005 else d.high

/-- The risk before the minimum-risk clamp. -/
def riskPre (d : WebhookData) : ℚ :=
  if (trendOf d).1 = "UPTREND" then d.close - stopLossRaw d
  else stopLossRaw d - d.close

/-- The risk actually used for the targets: clamped to
`entry × 0.0005` whenever it is at most `0.00001`. -/
def riskUsed (d : WebhookData) : ℚ :=
  if riskPre d ≤ 0.00001 then d.close * 0.0005 else riskPre d

/-- `SignalEngine.process(data)` from the webhook scanner. -/
def process (d : WebhookData) : WebhookOutput :=
  if d.symbol = "" ∨ d.close = 0 then
    WebhookOutput.error "Invalid Data: Missing symbol or close price"
  else
    let tv := trendOf d
    if tv.2 = false then
      WebhookOutput.wait d.symbol "Trend conditions not met (Price/SMA alignment)"
    else if d.reversal_signal = false then
      WebhookOutput.wait d.symbol "No Reversal Signal (Pin Bar/Sweep/BOS) detected"
    else
      let direction := if tv.1 = "UPTREND" then "BUY" else "SELL"
      let entryPrice := d.close
      let stopLoss := stopLossRaw d
      let risk := riskUsed d
      let tp1 := if direction = "BUY" then entryPrice + risk * 1.5 else entryPrice - risk * 1.5
      let tp2 := if direction = "BUY" then entryPrice + risk * 2 else entryPrice - risk * 2
      let tp3 := if direction = "BUY" then entryPrice + risk * 3 else entryPrice - risk * 3
      let score : Nat :=
        match numTruthy d.sma20, numTruthy d.sma200 with
        | some _, some _ => 90
        | _, _ => 80
      WebhookOutput.sig
        { symbol := d.symbol, timeframe := "M5", trend := tv.1, signal := direction,
          entry_price := round5 entryPrice, stop_loss := round5 stopLoss,
          tp1 := round5 tp1, tp2 := round5 tp2, tp3 := round5 tp3,
          strength_score := score,
          reason := tv.1 ++ " confirmed + " ++ d.pattern_name.getD "Reversal Pattern" ++
            " + Risk " ++ toString (round5 risk) }

end SignalEngine

example :
    (processPrice (fun _ => none) "EUR_USD" 2 3).1 "EUR_USD" =
      some ⟨0, 2, 2, 2, 2⟩ := by
  decide
example :
    SignalEngine.process
      ⟨"EURUSD", 11 / 10, 12 / 10, 105 / 100, some (109 / 100), some 1, none, true,
        some "Bullish Engulfing"⟩ =
      WebhookOutput.sig
        ⟨"EURUSD", "M5", "UPTREND", "BUY", 11 / 10, 105 / 100, 47 / 40, 12 / 10,
          5 / 4, 90, "UPTREND confirmed + Bullish Engulfing + Risk " ++ toString ((1 : ℚ) / 20)⟩ := by
  decide

/-- An all-flat candle at a single price. -/
def flatC (t : Nat) (p : ℚ) : Candle := ⟨t, p, p, p, p⟩

/-- A 200-candle history with a clean uptrend and a final bullish
engulfing: 180 flat candles at 100, 18 flat candles at 110, a red candle,
and a green engulfing candle closing at 116; ATR(14) = 1. -/
def simpleHist : List Candle :=
  ((List.range 180).map (fun i => flatC (300000 * i) 100)) ++
  ((List.range 18).map (fun i => flatC (300000 * (180 + i)) 110)) ++
  [⟨300000 * 198, 112, 112, 108, 108⟩, ⟨300000 * 199, 106, 116, 106, 116⟩]

/-- The last candle of `simpleHist` (the candle being closed). -/
def simpleLast : Candle := ⟨300000 * 199, 106, 116, 106, 116⟩

example :
    onCandleClose "BTCUSDT" simpleHist simpleLast =
      CloseOutput.sig
        ⟨"BTCUSDT", "M5", "UPTREND", "BUY", 116, 229 / 2, 473 / 4, 119, 241 / 2, 85,
          "Uptrend (Price > SMA200) + Bullish Pattern"⟩ := by
  decide

/-- One millionth: the price-movement scale of `tinyHist`. -/
def eps : ℚ := 1 / 1000000

/-- A 200-candle history identical in shape to `simpleHist` but with all
price movement shrunk to the `eps` scale around 1: the uptrend and the
final bullish engulfing still hold, but ATR(14) = eps/4, so the stop
distance is about 4 × 10⁻⁷. -/
def tinyHist : List Candle :=
  ((List.range 180).map (fun i => flatC (300000 * i) 1)) ++
  ((List.range 18).map (fun i => flatC (300000 * (180 + i)) (1 + eps))) ++
  [⟨300000 * 198, 1 + 2 * eps, 1 + 2 * eps, 1 + eps, 1 + eps⟩,
   ⟨300000 * 199, 1 + eps / 2, 1 + 3 * eps, 1 + eps / 2, 1 + 3 * eps⟩]

/-- The last candle of `tinyHist`. -/
def tinyLast : Candle := ⟨300000 * 199, 1 + eps / 2, 1 + 3 * eps, 1 + eps / 2, 1 + 3 * eps⟩

/-- The signal `onCandleClose` emits on `tinyHist`: a BUY whose rounded
entry, stop and all three targets coincide at 1. -/
def tinySig : SignalOut :=
  ⟨"EUR_USD", "M5", "UPTREND", "BUY", 1, 1, 1, 1, 1, 85,
    "Uptrend (Price > SMA200) + Bullish Pattern"⟩

example : onCandleClose "EUR_USD" tinyHist tinyLast = CloseOutput.sig tinySig := by decide
example : atrTotal tinyHist 14 = eps / 4 := by decide

/-- C8: for every symbol whose History Buffer holds fewer than 200 closed
candles, every candle close emits a WAIT status whose reason cites
insufficient history — the exact source string "Not enough data
(n/200)" — and no BUY/SELL signal record is produced for that close,
regardless of any pattern or sweep in the data. -/
theorem claim_C8_insufficient_history_waits (symbol : String) (history : List Candle)
    (candle : Candle) (h : history.length < 200) :
    onCandleClose symbol history candle =
      CloseOutput.waitData symbol ("Not enough data (" ++ toString history.length ++ "/200)") ∧
    ∀ s : SignalOut, onCandleClose symbol history candle ≠ CloseOutput.sig s := by
  refine ⟨?_, ?_⟩
  · simp only [onCandleClose, if_pos h]
  · intro s
    simp only [onCandleClose, if_pos h]
    intro hcontra
    exact CloseOutput.noConfusion hcontra

/-- Witness for C8 at a one-candle buffer. -/
theorem claim_C8_insufficient_history_waits_witness :
    onCandleClose "BTCUSDT" [flatC 0 7] (flatC 0 7) =
      CloseOutput.waitData "BTCUSDT" ("Not enough data (" ++ toString (1 : Nat) ++ "/200)") ∧
    ∀ s : SignalOut, onCandleClose "BTCUSDT" [flatC 0 7] (flatC 0 7) ≠ CloseOutput.sig s :=
  claim_C8_insufficient_history_waits "BTCUSDT" [flatC 0 7] (flatC 0 7) (by decide)

/-- C10: a tick whose timestamp falls in the same bucket as the symbol's
ActiveCandle only updates that candle's high (to the max with the tick
price), low (to the min) and close (to the tick price); its open and
bucket time, the whole per-symbol candle-buffer map, and every other
symbol's active candle are untouched, and no candle-close event fires. -/
theorem claim_C10_same_bucket_frame (st : MarketState) (symbol : String) (price : ℚ)
    (t : Nat) (a : Candle) (hact : st.activeCandle symbol = some a)
    (hb : a.time = bucket5m t) :
    (updateTick st symbol price t).2 = [] ∧
    (updateTick st symbol price t).1.candles = st.candles ∧
    (updateTick st symbol price t).1.activeCandle symbol =
      some { a with close := price, high := max a.high price, low := min a.low price } ∧
    ∀ symbol2, symbol2 ≠ symbol →
      (updateTick st symbol price t).1.activeCandle symbol2 = st.activeCandle symbol2 := by
  have hne : ¬ a.time ≠ bucket5m t := by simp [hb]
  refine ⟨?_, ?_, ?_, ?_⟩
  · simp only [updateTick, hact, if_neg hne]
  · simp only [updateTick, hact, if_neg hne]
  · simp only [updateTick, hact, if_neg hne, Function.update_same]
  · intro symbol2 hne2
    simp only [updateTick, hact, if_neg hne]
    exact Function.update_noteq hne2 _ _

/-- Witness for C10: a same-bucket tick on a live state. -/
theorem claim_C10_same_bucket_frame_witness :
    ((updateTick (updateTick initState "XAU_USD" 3 600000).1 "XAU_USD" 5 600123).2 = [] ∧
     (updateTick (updateTick initState "XAU_USD" 3 600000).1 "XAU_USD" 5 600123).1.candles =
       (updateTick initState "XAU_USD" 3 600000).1.candles ∧
     (updateTick (updateTick initState "XAU_USD" 3 600000).1 "XAU_USD" 5 600123).1.activeCandle
         "XAU_USD" =
       some ⟨600000, 3, max (3 : ℚ) 5, min (3 : ℚ) 5, 5⟩ ∧
     ∀ symbol2, symbol2 ≠ "XAU_USD" →
       (updateTick (updateTick initState "XAU_USD" 3 600000).1 "XAU_USD" 5 600123).1.activeCandle
           symbol2 =
         (updateTick initState "XAU_USD" 3 600000).1.activeCandle symbol2) :=
  claim_C10_same_bucket_frame (updateTick initState "XAU_USD" 3 600000).1 "XAU_USD" 5 600123
    ⟨600000, 3, 3, 3, 3⟩ (by decide) (by decide)

/-- C1 counterexample: a tick whose bucket (0) is strictly earlier than the
ActiveCandle's bucket (300000) is not dropped: a candle-close event fires,
the closed candle is pushed into the History Buffer, and the ActiveCandle
is replaced by a fresh candle at the earlier bucket. -/
theorem claim_C1_early_tick_not_dropped_ce :
    bucket5m 0 < 300000 ∧
    (updateTick (updateTick initState "EUR_USD" 5 300000).1 "EUR_USD" 7 0).2 =
      [("EUR_USD", ⟨300000, 5, 5, 5, 5⟩)] ∧
    (updateTick (updateTick initState "EUR_USD" 5 300000).1 "EUR_USD" 7 0).1.activeCandle
        "EUR_USD" = some ⟨0, 7, 7, 7, 7⟩ ∧
    (updateTick (updateTick initState "EUR_USD" 5 300000).1 "EUR_USD" 7 0).1.candles
        "EUR_USD" = [⟨300000, 5, 5, 5, 5⟩] := by
  decide

/-- C1 amended: ticks mapping to a bucket strictly earlier than the current
ActiveCandle's bucket are not dropped. In `MarketManager.updateTick` any
bucket mismatch — earlier or later — closes the ActiveCandle (pushing it
into the buffer, without duplicate check, and firing the close event) and
opens a fresh ActiveCandle at the tick's bucket; in the OANDA streamer's
tick core an earlier-bucket tick is merged into the current ActiveCandle,
updating its high/low/close without closing or emitting anything. -/
theorem claim_C1_amended_early_tick_behaviour :
    (∀ (st : MarketState) (symbol : String) (price : ℚ) (t : Nat) (a : Candle),
      st.activeCandle symbol = some a → bucket5m t < a.time →
      (updateTick st symbol price t).2 = [(symbol, a)] ∧
      (updateTick st symbol price t).1.activeCandle symbol =
        some ⟨bucket5m t, price, price, price, price⟩ ∧
      (updateTick st symbol price t).1.candles symbol =
        (if (st.candles symbol ++ [a]).length > 300 then (st.candles symbol ++ [a]).tail
         else st.candles symbol ++ [a])) ∧
    (∀ (ac : String → Option OandaCandle) (symbol : String) (price : ℚ) (t : Nat)
      (c : OandaCandle), ac symbol = some c → bucket5m t < c.bucketTime →
      (processPrice ac symbol price t).2 = [] ∧
      (processPrice ac symbol price t).1 symbol =
        some ⟨c.bucketTime, c.open_, max c.high price, min c.low price, price⟩) := by
  constructor
  · intro st symbol price t a hact hlt
    have hne : a.time ≠ bucket5m t := Nat.ne_of_gt hlt
    refine ⟨?_, ?_, ?_⟩
    · simp only [updateTick, hact, if_pos hne]
    · simp only [updateTick, hact, if_pos hne, Function.update_same]
    · simp only [updateTick, hact, if_pos hne, Function.update_same]
  · intro ac symbol price t c hact hlt
    have hng : ¬ bucket5m t > c.bucketTime := Nat.lt_asymm hlt
    refine ⟨?_, ?_⟩
    · simp only [processPrice, hact, if_neg hng]
    · simp only [processPrice, hact, if_neg hng, Function.update_same]

/-- Witness for the amended C1, on both aggregation paths. -/
theorem claim_C1_amended_early_tick_behaviour_witness :
    ((updateTick (updateTick initState "GBP_USD" 5 300000).1 "GBP_USD" 7 0).2 =
      [("GBP_USD", ⟨300000, 5, 5, 5, 5⟩)] ∧
     (updateTick (updateTick initState "GBP_USD" 5 300000).1 "GBP_USD" 7 0).1.activeCandle
        "GBP_USD" = some ⟨bucket5m 0, 7, 7, 7, 7⟩ ∧
     (updateTick (updateTick initState "GBP_USD" 5 300000).1 "GBP_USD" 7 0).1.candles
        "GBP_USD" = [⟨300000, 5, 5, 5, 5⟩]) ∧
    ((processPrice (processPrice (fun _ => none) "USD_JPY" 9 300000).1 "USD_JPY" 11 0).2 = [] ∧
     (processPrice (processPrice (fun _ => none) "USD_JPY" 9 300000).1 "USD_JPY" 11 0).1
        "USD_JPY" = some ⟨300000, 9, max (9 : ℚ) 11, min (9 : ℚ) 11, 11⟩) :=
  ⟨claim_C1_amended_early_tick_behaviour.1 (updateTick initState "GBP_USD" 5 300000).1
      "GBP_USD" 7 0 ⟨300000, 5, 5, 5, 5⟩ (by decide) (by decide),
   claim_C1_amended_early_tick_behaviour.2 (processPrice (fun _ => none) "USD_JPY" 9 300000).1
      "USD_JPY" 11 0 ⟨300000, 9, 9, 9, 9⟩ (by decide) (by decide)⟩

/-- C2 counterexample: feeding ticks whose buckets go 0, 300000, 0, 300000
leaves the buffer times as [0, 300000, 0] — neither increasing nor unique,
so the invariant is not preserved by every live tick update. -/
theorem claim_C2_buffer_order_ce :
    bufTimes
      (updateTick
        (updateTick
          (updateTick (updateTick initState "EUR_USD" 1 0).1 "EUR_USD" 2 300000).1
          "EUR_USD" 3 0).1
        "EUR_USD" 4 300000).1 "EUR_USD" = [0, 300000, 0] ∧
    ¬ (List.Sorted (· < ·)
        (bufTimes
          (updateTick
            (updateTick
              (updateTick (updateTick initState "EUR_USD" 1 0).1 "EUR_USD" 2 300000).1
              "EUR_USD" 3 0).1
            "EUR_USD" 4 300000).1 "EUR_USD")) := by
  decide

/-- C3 counterexample: the live close path appends unconditionally. With a
warm-up candle already buffered at bucket 0, a live candle closed at the
same bucket 0 is pushed anyway, leaving two buffer entries with the same
bucket timestamp. -/
theorem claim_C3_live_path_no_dedup_ce :
    (updateTick
      (updateTick (addHistory initState "BTCUSDT" [flatC 0 2]) "BTCUSDT" 3 10).1
      "BTCUSDT" 4 300000).1.candles "BTCUSDT" =
      [⟨0, 2, 2, 2, 2⟩, ⟨0, 3, 3, 3, 3⟩] ∧
    ¬ (bufTimes
        (updateTick
          (updateTick (addHistory initState "BTCUSDT" [flatC 0 2]) "BTCUSDT" 3 10).1
          "BTCUSDT" 4 300000).1 "BTCUSDT").Nodup := by
  decide

/-- The state reached by warming a symbol up with 300 candles at buckets
300000·1 … 300000·300 and then feeding two live ticks at buckets 0 and
300000: the close of the bucket-0 candle overflows the buffer and evicts
the buffer head. -/
def c9state : MarketState :=
  (updateTick
    (updateTick
      (addHistory initState "XAU_USD"
        ((List.range 300).map (fun i => flatC (300000 * (i + 1)) 1)))
      "XAU_USD" 1 0).1
    "XAU_USD" 1 300000).1

/-- C9 counterexample: the eviction on the live path removes the buffer
head, not the earliest-timestamped entry. In `c9state` the buffer is at
capacity 300 and the entry with timestamp 300000 has been evicted even
though an entry with the strictly smaller timestamp 0 is still buffered. -/
theorem claim_C9_evicts_head_not_earliest_ce :
    (c9state.candles "XAU_USD").length = 300 ∧
    0 ∈ bufTimes c9state "XAU_USD" ∧ 300000 ∉ bufTimes c9state "XAU_USD" := by
  decide

/-- The spec's buffer-order invariant: the buffer's bucket timestamps are
strictly increasing (hence unique) in buffer order. -/
def timesSorted (l : List Candle) : Prop :=
  List.Sorted (· < ·) (l.map Candle.time)

instance (l : List Candle) : Decidable (timesSorted l) :=
  inferInstanceAs (Decidable (List.Sorted (· < ·) (l.map Candle.time)))

lemma timesSorted.sorted_timeLE {l : List Candle} (h : timesSorted l) :
    l.Sorted timeLE := by
  have h' := (List.pairwise_map.mp h).imp (fun hab => Nat.le_of_lt hab)
  exact h'

lemma timesSorted.nodupTimes {l : List Candle} (h : timesSorted l) :
    (l.map Candle.time).Nodup :=
  h.imp (fun hab => Nat.ne_of_lt hab)

lemma timesSorted_of_le_nodup {l : List Candle} (hs : l.Sorted timeLE)
    (hn : (l.map Candle.time).Nodup) : timesSorted l := by
  have hs' : l.Pairwise (fun a b : Candle => a.time ≤ b.time) := hs
  have hn' : l.Pairwise (fun a b : Candle => a.time ≠ b.time) := List.pairwise_map.mp hn
  have : l.Pairwise (fun a b : Candle => a.time < b.time) :=
    (hs'.and hn').imp (fun hab => lt_of_le_of_ne hab.1 hab.2)
  exact List.pairwise_map.mpr this

lemma timesSorted.drop {l : List Candle} (h : timesSorted l) (n : Nat) :
    timesSorted (l.drop n) := by
  unfold timesSorted
  rw [List.map_drop]
  exact h.sublist (List.drop_sublist n _)

lemma timesSorted.tail {l : List Candle} (h : timesSorted l) :
    timesSorted l.tail := by
  have := h.drop 1
  simpa [List.drop_one] using this

example : timesSorted [flatC 0 1, flatC 300000 2] := by decide

/-- C3 amended: dedup by bucket timestamp holds only for the warm-up merge
path: `addHistory` of a candle whose bucket timestamp is already buffered
is a no-op on a sorted buffer within capacity. The live tick path has no
duplicate check: closing the ActiveCandle always appends it (trimming the
head on overflow), even when its bucket timestamp is already buffered. -/
theorem claim_C3_amended_dedup_merge_only :
    (∀ (st : MarketState) (symbol : String) (c : Candle),
      timesSorted (st.candles symbol) → (st.candles symbol).length ≤ 300 →
      c.time ∈ bufTimes st symbol →
      (addHistory st symbol [c]).candles symbol = st.candles symbol) ∧
    (∀ (st : MarketState) (symbol : String) (price : ℚ) (t : Nat) (a : Candle),
      st.activeCandle symbol = some a → a.time ≠ bucket5m t →
      (updateTick st symbol price t).1.candles symbol =
        (if (st.candles symbol ++ [a]).length > 300 then (st.candles symbol ++ [a]).tail
         else st.candles symbol ++ [a])) := by
  constructor
  · intro st symbol c hsort hlen hmem
    have hmem' : c.time ∈ (st.candles symbol).map Candle.time := hmem
    have hfilter :
        [c].filter (fun x => x.time ∉ (st.candles symbol).map Candle.time) = [] := by
      simp only [List.filter_cons, List.filter_nil, decide_not]
      rw [if_neg]
      simp only [Bool.not_eq_true, Bool.not_eq_true', decide_eq_false_iff_not, Decidable.not_not]
      exact hmem'
    have hms : mergedSorted st symbol [c] = st.candles symbol := by
      unfold mergedSorted
      rw [hfilter, List.append_nil]
      exact (timesSorted.sorted_timeLE hsort).insertionSort_eq
    simp only [addHistory, hms, Function.update_same]
    rw [if_neg (by omega)]
  · intro st symbol price t a hact hne
    simp only [updateTick, hact, if_pos hne, Function.update_same]

/-- Witness for the amended C3: a duplicate-bucket warm-up merge is a
no-op, while a duplicate-bucket live close appends anyway. -/
theorem claim_C3_amended_dedup_merge_only_witness :
    ((addHistory (addHistory initState "NZD_USD" [flatC 0 2]) "NZD_USD" [flatC 0 9]).candles
        "NZD_USD" = (addHistory initState "NZD_USD" [flatC 0 2]).candles "NZD_USD") ∧
    ((updateTick (updateTick initState "AUDUSD" 2 0).1 "AUDUSD" 3 300000).1.candles
        "AUDUSD" = [⟨0, 2, 2, 2, 2⟩]) :=
  ⟨claim_C3_amended_dedup_merge_only.1 (addHistory initState "NZD_USD" [flatC 0 2])
      "NZD_USD" (flatC 0 9) (by decide) (by decide) (by decide),
   claim_C3_amended_dedup_merge_only.2 (updateTick initState "AUDUSD" 2 0).1 "AUDUSD" 3
      300000 ⟨0, 2, 2, 2, 2⟩ (by decide) (by decide)⟩

/-- C9 amended: the buffer never exceeds capacity 300 (warm-up merges cap
unconditionally; live closes preserve the bound). `addHistory` keeps
exactly the last 300 entries of the ascending-sorted merged list, so the
entries it evicts are all earliest (time-minimal up to ties): every
evicted entry's timestamp is at most every kept entry's timestamp. The
live close path instead evicts the buffer head, which is the
earliest-timestamped entry only when the buffer is time-sorted (and the
closing candle is no earlier than the buffered entries). -/
theorem claim_C9_amended_capacity_and_eviction :
    (∀ (st : MarketState) (symbol : String) (batch : List Candle),
      ((addHistory st symbol batch).candles symbol).length ≤ 300) ∧
    (∀ (st : MarketState) (symbol : String) (price : ℚ) (t : Nat),
      (st.candles symbol).length ≤ 300 →
      ((updateTick st symbol price t).1.candles symbol).length ≤ 300) ∧
    (∀ (st : MarketState) (symbol : String) (batch : List Candle),
      (addHistory st symbol batch).candles symbol =
        (mergedSorted st symbol batch).drop ((mergedSorted st symbol batch).length - 300)) ∧
    (∀ (st : MarketState) (symbol : String) (batch : List Candle) (x y : Candle),
      x ∈ (mergedSorted st symbol batch).take ((mergedSorted st symbol batch).length - 300) →
      y ∈ (addHistory st symbol batch).candles symbol → x.time ≤ y.time) ∧
    (∀ (st : MarketState) (symbol : String) (price : ℚ) (t : Nat) (a : Candle),
      st.activeCandle symbol = some a → a.time ≠ bucket5m t →
      timesSorted (st.candles symbol) → (∀ u ∈ bufTimes st symbol, u ≤ a.time) →
      ∀ x ∈ (st.candles symbol).take 1,
        ∀ y ∈ (updateTick st symbol price t).1.candles symbol, x.time ≤ y.time) := by
  have hdropEq : ∀ (st : MarketState) (symbol : String) (batch : List Candle),
      (addHistory st symbol batch).candles symbol =
        (mergedSorted st symbol batch).drop ((mergedSorted st symbol batch).length - 300) := by
    intro st symbol batch
    simp only [addHistory, Function.update_same]
    by_cases h : (mergedSorted st symbol batch).length > 300
    · rw [if_pos h]
    · rw [if_neg h, Nat.sub_eq_zero_of_le (by omega), List.drop_zero]
  refine ⟨?_, ?_, hdropEq, ?_, ?_⟩
  · intro st symbol batch
    rw [hdropEq, List.length_drop]
    omega
  · intro st symbol price t hlen
    rcases hA : st.activeCandle symbol with _ | a
    · simpa only [updateTick, hA] using hlen
    · by_cases hne : a.time ≠ bucket5m t
      · simp only [updateTick, hA, if_pos hne, Function.update_same]
        by_cases hover : (st.candles symbol ++ [a]).length > 300
        · rw [if_pos hover, List.length_tail, List.length_append]
          simp only [List.length_singleton] at *
          omega
        · rw [if_neg hover]
          omega
      · simpa only [updateTick, hA, if_neg hne] using hlen
  · intro st symbol batch x y hx hy
    rw [hdropEq] at hy
    have hsorted : (mergedSorted st symbol batch).Sorted timeLE :=
      List.sorted_insertionSort timeLE _
    set n := (mergedSorted st symbol batch).length - 300 with hn
    have hsplit := List.take_append_drop n (mergedSorted st symbol batch)
    rw [← hsplit] at hsorted
    exact (List.pairwise_append.mp hsorted).2.2 x hx y hy
  · intro st symbol price t a hact hne hsort hdom x hx y hy
    simp only [updateTick, hact, if_pos hne, Function.update_same] at hy
    have hy' : y ∈ st.candles symbol ++ [a] := by
      by_cases hover : (st.candles symbol ++ [a]).length > 300
      · rw [if_pos hover] at hy
        exact List.tail_subset _ hy
      · rwa [if_neg hover] at hy
    have hxbuf : x ∈ st.candles symbol := List.take_subset 1 _ hx
    rcases List.mem_append.mp hy' with hyb | hya
    · rcases hbuf : st.candles symbol with _ | ⟨z, rest⟩
      · rw [hbuf] at hx
        simp at hx
      · rw [hbuf] at hx hyb
        simp only [List.take_succ_cons, List.take_zero, List.mem_singleton] at hx
        subst hx
        rcases List.mem_cons.mp hyb with rfl | hyr
        · exact Nat.le_refl _
        · have hs : (st.candles symbol).Sorted timeLE := hsort.sorted_timeLE
          rw [hbuf] at hs
          exact List.rel_of_sorted_cons hs y hyr
    · rw [List.mem_singleton.mp hya]
      exact hdom x.time (List.mem_map_of_mem Candle.time hxbuf)

/-- Witness for the amended C9: capacity bounds on concrete states, an
overflowing 301-candle warm-up merge whose evicted entry is earliest, and
a live close on a sorted two-entry state. -/
theorem claim_C9_amended_capacity_and_eviction_witness :
    ((addHistory initState "USD_CAD" [flatC 0 1]).candles "USD_CAD").length ≤ 300 ∧
    ((updateTick (updateTick initState "USD_CAD" 1 0).1 "USD_CAD" 2 300000).1.candles
        "USD_CAD").length ≤ 300 ∧
    (flatC 0 1).time ≤ (flatC 300000 1).time ∧
    (flatC 0 1).time ≤ (⟨300000, 5, 5, 5, 5⟩ : Candle).time :=
  ⟨claim_C9_amended_capacity_and_eviction.1 initState "USD_CAD" [flatC 0 1],
   claim_C9_amended_capacity_and_eviction.2.1 (updateTick initState "USD_CAD" 1 0).1
     "USD_CAD" 2 300000 (by decide),
   claim_C9_amended_capacity_and_eviction.2.2.2.1 initState "USD_CAD"
     ((List.range 301).map (fun i => flatC (300000 * i) 1)) (flatC 0 1) (flatC 300000 1)
     (by decide) (by decide),
   claim_C9_amended_capacity_and_eviction.2.2.2.2
     (updateTick (addHistory initState "CHF_JPY" [flatC 0 1]) "CHF_JPY" 5 300000).1
     "CHF_JPY" 6 600000 ⟨300000, 5, 5, 5, 5⟩ (by decide) (by decide) (by decide)
     (by decide) (flatC 0 1) (by decide) ⟨300000, 5, 5, 5, 5⟩ (by decide)⟩

lemma addHistory_candles_eq_drop (st : MarketState) (symbol : String)
    (batch : List Candle) :
    (addHistory st symbol batch).candles symbol =
      (mergedSorted st symbol batch).drop ((mergedSorted st symbol batch).length - 300) := by
  simp only [addHistory, Function.update_same]
  by_cases h : (mergedSorted st symbol batch).length > 300
  · rw [if_pos h]
  · rw [if_neg h, Nat.sub_eq_zero_of_le (by omega), List.drop_zero]

/-- C2 amended: the strictly-increasing-unique-times invariant is not
unconditional. It holds after any warm-up merge into a well-ordered buffer
provided the incoming batch itself has pairwise-distinct timestamps (the
dedup set is only computed against the buffer, so in-batch duplicates
slip through), and it is preserved by a live tick only under the tick
discipline that the tick's bucket is not earlier than the ActiveCandle's
bucket and that the ActiveCandle's bucket is later than every buffered
entry (the companion invariant, also preserved). -/
theorem claim_C2_amended_buffer_invariant :
    (∀ (st : MarketState) (symbol : String) (batch : List Candle),
      timesSorted (st.candles symbol) → (batch.map Candle.time).Nodup →
      timesSorted ((addHistory st symbol batch).candles symbol)) ∧
    (∀ (st : MarketState) (symbol : String) (price : ℚ) (t : Nat),
      timesSorted (st.candles symbol) →
      (∀ a : Candle, st.activeCandle symbol = some a →
        (∀ u ∈ bufTimes st symbol, u < a.time) ∧ a.time ≤ bucket5m t) →
      (st.activeCandle symbol = none → ∀ u ∈ bufTimes st symbol, u < bucket5m t) →
      timesSorted ((updateTick st symbol price t).1.candles symbol) ∧
      (∀ a2 : Candle, (updateTick st symbol price t).1.activeCandle symbol = some a2 →
        ∀ u ∈ bufTimes (updateTick st symbol price t).1 symbol, u < a2.time)) := by
  constructor
  · intro st symbol batch hsort hnodup
    have hfN :
        ((batch.filter
          (fun c => c.time ∉ (st.candles symbol).map Candle.time)).map Candle.time).Nodup :=
      hnodup.sublist ((List.filter_sublist _).map _)
    have hdisj : ∀ u ∈ (st.candles symbol).map Candle.time,
        u ∉ (batch.filter
          (fun c => c.time ∉ (st.candles symbol).map Candle.time)).map Candle.time := by
      intro u hu hmem
      obtain ⟨c, hc, rfl⟩ := List.mem_map.mp hmem
      have hpc := List.of_mem_filter hc
      simp only [decide_not, Bool.not_eq_true', decide_eq_false_iff_not,
        Decidable.not_not] at hpc
      exact hpc hu
    have hmergedN :
        (((st.candles symbol) ++ batch.filter
          (fun c => c.time ∉ (st.candles symbol).map Candle.time)).map Candle.time).Nodup := by
      rw [List.map_append]
      exact List.nodup_append.mpr ⟨hsort.nodupTimes, hfN, hdisj⟩
    have hperm :
        List.Perm (mergedSorted st symbol batch)
          ((st.candles symbol) ++ batch.filter
            (fun c => c.time ∉ (st.candles symbol).map Candle.time)) :=
      List.perm_insertionSort timeLE _
    have hSnodup : ((mergedSorted st symbol batch).map Candle.time).Nodup :=
      ((hperm.map Candle.time).nodup_iff).mpr hmergedN
    have hS : timesSorted (mergedSorted st symbol batch) :=
      timesSorted_of_le_nodup (List.sorted_insertionSort timeLE _) hSnodup
    rw [addHistory_candles_eq_drop]
    exact hS.drop _
  · intro st symbol price t hsort hsome hnone
    rcases hA : st.activeCandle symbol with _ | a
    · refine ⟨by simpa only [updateTick, hA] using hsort, ?_⟩
      intro a2 ha2 u hu
      simp only [updateTick, hA, Function.update_same] at ha2
      injection ha2 with h2
      subst h2
      simp only [updateTick, hA, bufTimes] at hu
      exact hnone hA u hu
    · have hd := hsome a hA
      by_cases hne : a.time ≠ bucket5m t
      · have hlt : a.time < bucket5m t := lt_of_le_of_ne hd.2 hne
        have hpush : timesSorted (st.candles symbol ++ [a]) := by
          unfold timesSorted
          rw [List.map_append]
          apply List.pairwise_append.mpr
          refine ⟨hsort, List.pairwise_singleton _ _, ?_⟩
          intro u hu v hv
          simp only [List.map_cons, List.map_nil, List.mem_singleton] at hv
          subst hv
          exact hd.1 u hu
        constructor
        · simp only [updateTick, hA, if_pos hne, Function.update_same]
          by_cases hover : (st.candles symbol ++ [a]).length > 300
          · rw [if_pos hover]
            exact hpush.tail
          · rwa [if_neg hover]
        · intro a2 ha2 u hu
          simp only [updateTick, hA, if_pos hne, Function.update_same] at ha2
          injection ha2 with h2
          subst h2
          simp only [bufTimes, updateTick, hA, if_pos hne, Function.update_same] at hu
          have hu' : u ∈ (st.candles symbol ++ [a]).map Candle.time := by
            by_cases hover : (st.candles symbol ++ [a]).length > 300
            · rw [if_pos hover] at hu
              exact ((List.tail_sublist _).map Candle.time).subset hu
            · rwa [if_neg hover] at hu
          rw [List.map_append] at hu'
          rcases List.mem_append.mp hu' with hub | hua
          · exact Nat.lt_trans (hd.1 u hub) hlt
          · simp only [List.map_cons, List.map_nil, List.mem_singleton] at hua
            subst hua
            exact hlt
      · refine ⟨by simpa only [updateTick, hA, if_neg hne] using hsort, ?_⟩
        intro a2 ha2 u hu
        simp only [updateTick, hA, if_neg hne, Function.update_same] at ha2
        injection ha2 with h2
        subst h2
        simp only [bufTimes, updateTick, hA, if_neg hne] at hu
        exact hd.1 u hu

/-- Witness for the amended C2: a duplicate-free warm-up merge and an
in-order live tick on concrete states. -/
theorem claim_C2_amended_buffer_invariant_witness :
    timesSorted ((addHistory initState "EUR_JPY"
      [flatC 300000 2, flatC 0 1]).candles "EUR_JPY") ∧
    (timesSorted ((updateTick (addHistory initState "EUR_GBP" [flatC 0 1])
        "EUR_GBP" 5 300000).1.candles "EUR_GBP") ∧
     (∀ a2 : Candle,
        (updateTick (addHistory initState "EUR_GBP" [flatC 0 1])
          "EUR_GBP" 5 300000).1.activeCandle "EUR_GBP" = some a2 →
        ∀ u ∈ bufTimes (updateTick (addHistory initState "EUR_GBP" [flatC 0 1])
          "EUR_GBP" 5 300000).1 "EUR_GBP", u < a2.time)) :=
  ⟨claim_C2_amended_buffer_invariant.1 initState "EUR_JPY" [flatC 300000 2, flatC 0 1]
      (by decide) (by decide),
   claim_C2_amended_buffer_invariant.2 (addHistory initState "EUR_GBP" [flatC 0 1])
      "EUR_GBP" 5 300000 (by decide)
      (fun a ha => Option.noConfusion ha)
      (fun _ => by decide)⟩

/-- The claim's bullish-engulfing condition (matches the source test):
current green, previous red, current close above previous open, current
open below previous close. -/
def specBullishEngulfing (prev current : Candle) : Prop :=
  current.close > current.open_ ∧ prev.close < prev.open_ ∧
  current.close > prev.open_ ∧ current.open_ < prev.close

/-- The claim's bearish engulfing, symmetric to the bullish one: current
red, previous green, current close below previous OPEN, current open above
previous CLOSE. The source instead tests current close below previous
CLOSE and current open above previous OPEN — a strictly weaker condition. -/
def specBearishEngulfing (prev current : Candle) : Prop :=
  current.close < current.open_ ∧ prev.close > prev.open_ ∧
  current.close < prev.open_ ∧ current.open_ > prev.close

/-- The source's bullish pin bar test on the current candle: lower wick
longer than twice the body and upper wick shorter than the body. -/
def pinBarBullish (current : Candle) : Prop :=
  min current.open_ current.close - current.low > |current.close - current.open_| * 2 ∧
  current.high - max current.open_ current.close < |current.close - current.open_|

instance (p c : Candle) : Decidable (specBullishEngulfing p c) := by
  unfold specBullishEngulfing
  infer_instance

instance (p c : Candle) : Decidable (specBearishEngulfing p c) := by
  unfold specBearishEngulfing
  infer_instance

instance (c : Candle) : Decidable (pinBarBullish c) := by
  unfold pinBarBullish
  infer_instance

/-- C5 counterexample: a candle pair forming a symmetric bearish engulfing
(previous green 11→12, current red 12.1→10.9 engulfing it) whose current
candle also has a long lower wick (low 8): the bullish pin-bar test fires
first and classification returns BULLISH, not BEARISH. -/
theorem claim_C5_bearish_engulfing_ce :
    specBearishEngulfing ⟨0, 11, 12, 11, 12⟩ ⟨300000, 121 / 10, 61 / 5, 8, 109 / 10⟩ ∧
    detectPattern2 ⟨0, 11, 12, 11, 12⟩ ⟨300000, 121 / 10, 61 / 5, 8, 109 / 10⟩ = "BULLISH" ∧
    detectPattern2 ⟨0, 11, 12, 11, 12⟩ ⟨300000, 121 / 10, 61 / 5, 8, 109 / 10⟩ ≠ "BEARISH" := by
  decide

/-- C5 amended: classification returns BULLISH for the stated
bullish-engulfing condition; it returns BEARISH for a symmetric bearish
engulfing only when the current candle is not also a bullish pin bar
(the bullish pin-bar test takes precedence). Moreover the source's own
bearish-engulfing test compares against the previous close and open
(current close < previous close, current open > previous open), a strictly
weaker condition implied by the symmetric one. -/
theorem claim_C5_amended_pattern_classification :
    (∀ prev current : Candle, specBullishEngulfing prev current →
      detectPattern2 prev current = "BULLISH") ∧
    (∀ prev current : Candle, specBearishEngulfing prev current →
      ¬ pinBarBullish current → detectPattern2 prev current = "BEARISH") ∧
    (∀ prev current : Candle, specBearishEngulfing prev current →
      current.close < prev.close ∧ current.open_ > prev.open_) := by
  refine ⟨?_, ?_, ?_⟩
  · intro prev current h
    unfold detectPattern2
    dsimp only
    split_ifs with h1 h2
    · rfl
    · exact absurd (Or.inr h) h1
    · exact absurd (Or.inr h) h1
  · intro prev current h hnp
    obtain ⟨hred, hgreen, hco, hoc⟩ := h
    unfold detectPattern2
    dsimp only
    split_ifs with h1 h2
    · rcases h1 with hpin | heng
      · exact absurd hpin hnp
      · exact absurd heng.1 (not_lt_of_gt hred)
    · rfl
    · exact absurd
        (Or.inr ⟨hred, hgreen, lt_trans hco hgreen, lt_trans hgreen hoc⟩) h2
  · intro prev current h
    obtain ⟨hred, hgreen, hco, hoc⟩ := h
    exact ⟨lt_trans hco hgreen, lt_trans hgreen hoc⟩

/-- Witness for the amended C5: a concrete bullish engulfing and a concrete
symmetric bearish engulfing without a pin-bar wick. -/
theorem claim_C5_amended_pattern_classification_witness :
    detectPattern2 ⟨0, 2, 2, 1, 1⟩ ⟨300000, 1 / 2, 3, 1 / 2, 3⟩ = "BULLISH" ∧
    detectPattern2 ⟨0, 1, 2, 1, 2⟩ ⟨300000, 21 / 10, 3, 9 / 10, 9 / 10⟩ = "BEARISH" ∧
    ((⟨300000, 21 / 10, 3, 9 / 10, 9 / 10⟩ : Candle).close < (⟨0, 1, 2, 1, 2⟩ : Candle).close ∧
     (⟨300000, 21 / 10, 3, 9 / 10, 9 / 10⟩ : Candle).open_ > (⟨0, 1, 2, 1, 2⟩ : Candle).open_) :=
  ⟨claim_C5_amended_pattern_classification.1 ⟨0, 2, 2, 1, 1⟩ ⟨300000, 1 / 2, 3, 1 / 2, 3⟩
      (by decide),
   claim_C5_amended_pattern_classification.2.1 ⟨0, 1, 2, 1, 2⟩
      ⟨300000, 21 / 10, 3, 9 / 10, 9 / 10⟩ (by decide) (by decide),
   claim_C5_amended_pattern_classification.2.2 ⟨0, 1, 2, 1, 2⟩
      ⟨300000, 21 / 10, 3, 9 / 10, 9 / 10⟩ (by decide)⟩

/-- C6 counterexample: a candle aggregated from the tick at t = 0 (bucket
start 0) is emitted by the OANDA streamer with time 300000 — the bucket
END, not the bucket start. -/
theorem claim_C6_streamer_emits_bucket_end_ce :
    (processPrice (processPrice (fun _ => none) "XAG_USD" 1 0).1 "XAG_USD" 2 300000).2 =
      [⟨"XAG_USD", 300000, 1, 1, 1, 1⟩] ∧
    bucket5m 0 = 0 ∧ (300000 : Nat) ≠ bucket5m 0 := by
  decide

/-- C6 amended: only the MarketManager aggregation path stamps candles
with their bucket start: after any tick, the symbol's ActiveCandle carries
time `t − (t mod 300000)` and closed candles retain the bucket-start time
they were opened with. The standalone streamer outputs instead carry the
bucket END: the OANDA streamer emits `bucketTime + 300000` and the Binance
streamer copies the vendor kline's close-time field. -/
theorem claim_C6_amended_time_is_bucket_start_only_in_manager :
    (∀ (st : MarketState) (symbol : String) (price : ℚ) (t : Nat), ∃ a : Candle,
      (updateTick st symbol price t).1.activeCandle symbol = some a ∧
      a.time = bucket5m t) ∧
    (∀ (ac : String → Option OandaCandle) (symbol : String) (price : ℚ) (t : Nat)
      (c : OandaCandle), ac symbol = some c → bucket5m t > c.bucketTime →
      (processPrice ac symbol price t).2 =
        [⟨symbol, c.bucketTime + 300000, c.open_, c.high, c.low, c.close⟩]) ∧
    (∀ k : Kline, (klineOutput k).time = k.T) := by
  refine ⟨?_, ?_, ?_⟩
  · intro st symbol price t
    rcases hA : st.activeCandle symbol with _ | a
    · exact ⟨⟨bucket5m t, price, price, price, price⟩,
        by simp only [updateTick, hA, Function.update_same], rfl⟩
    · by_cases hne : a.time ≠ bucket5m t
      · exact ⟨⟨bucket5m t, price, price, price, price⟩,
          by simp only [updateTick, hA, if_pos hne, Function.update_same], rfl⟩
      · refine ⟨⟨a.time, a.open_, max a.high price, min a.low price, price⟩,
          by simp only [updateTick, hA, if_neg hne, Function.update_same], ?_⟩
        simpa using not_ne_iff.mp hne
  · intro ac symbol price t c hact hgt
    simp only [processPrice, hact, if_pos hgt]
  · intro k
    rfl

/-- Witness for the amended C6 on concrete ticks and a concrete kline. -/
theorem claim_C6_amended_time_is_bucket_start_only_in_manager_witness :
    (∃ a : Candle,
      (updateTick initState "US30_USD" 7 612345).1.activeCandle "US30_USD" = some a ∧
      a.time = bucket5m 612345) ∧
    ((processPrice (processPrice (fun _ => none) "NAS100_USD" 3 0).1
        "NAS100_USD" 4 600000).2 = [⟨"NAS100_USD", 0 + 300000, 3, 3, 3, 3⟩]) ∧
    (klineOutput ⟨"BTCUSDT", 0, 299999, 1, 2, 3, 4⟩).time = 299999 :=
  ⟨claim_C6_amended_time_is_bucket_start_only_in_manager.1 initState "US30_USD" 7 612345,
   claim_C6_amended_time_is_bucket_start_only_in_manager.2.1
     (processPrice (fun _ => none) "NAS100_USD" 3 0).1 "NAS100_USD" 4 600000
     ⟨0, 3, 3, 3, 3⟩ (by decide) (by decide),
   claim_C6_amended_time_is_bucket_start_only_in_manager.2.2 ⟨"BTCUSDT", 0, 299999, 1, 2, 3, 4⟩⟩

lemma trueRange_nonneg (prevClose : ℚ) (c : Candle) : 0 ≤ trueRange prevClose c :=
  le_trans (abs_nonneg (c.high - prevClose))
    (le_trans (le_max_left _ _) (le_max_right _ _))

lemma atrTotal_nonneg (candles : List Candle) (period : Nat) :
    0 ≤ atrTotal candles period := by
  unfold atrTotal
  apply div_nonneg
  · apply List.sum_nonneg
    intro x hx
    obtain ⟨pc, _, rfl⟩ := List.mem_map.mp hx
    exact trueRange_nonneg pc.1.close pc.2
  · exact Nat.cast_nonneg period

lemma round5_mono {a b : ℚ} (h : a ≤ b) : round5 a ≤ round5 b := by
  unfold round5
  have h2 : (⌊a * 100000 + 1 / 2⌋ : ℤ) ≤ ⌊b * 100000 + 1 / 2⌋ :=
    Int.floor_le_floor (by linarith)
  have h3 : ((⌊a * 100000 + 1 / 2⌋ : ℤ) : ℚ) ≤ ((⌊b * 100000 + 1 / 2⌋ : ℤ) : ℚ) := by
    exact_mod_cast h2
  linarith

/-- C7 counterexample: on `tinyHist` the Decision Engine emits a BUY whose
rounded outputs violate every strict inequality of the claim: the three
targets coincide (tp1 = tp2 = tp3 = 1) and the stop loss equals the entry
price instead of lying below it. -/
theorem claim_C7_rounded_targets_collapse_ce :
    onCandleClose "EUR_USD" tinyHist tinyLast = CloseOutput.sig tinySig ∧
    tinySig.signal = "BUY" ∧
    ¬ (tinySig.tp1 < tinySig.tp2) ∧ ¬ (tinySig.tp2 < tinySig.tp3) ∧
    ¬ (tinySig.stop_loss < tinySig.entry_price) := by
  decide

set_option maxHeartbeats 2000000 in
/-- C7 amended: every emitted signal follows the stated formulas with
stop distance ATR(14) × 1.5 and targets at risk multiples 1.5 / 2 / 3, all
rounded to five decimals; since rounding is monotone this yields the
non-strict orderings tp1 ≤ tp2 ≤ tp3 and stopLoss ≤ entry for BUY (and the
mirror image for SELL). The strict orderings hold for the pre-rounding
values whenever ATR(14) is positive, but the rounded outputs can collapse
onto each other when ATR(14) × 1.5 is below the rounding resolution. -/
theorem claim_C7_amended_target_ladder (symbol : String) (history : List Candle)
    (candle : Candle) (s : SignalOut)
    (h : onCandleClose symbol history candle = CloseOutput.sig s) :
    0 ≤ atrTotal history 14 ∧
    (s.signal = "BUY" ∨ s.signal = "SELL") ∧
    (s.signal = "BUY" →
      s.entry_price = round5 candle.close ∧
      s.stop_loss = round5 (candle.close - atrTotal history 14 * 1.5) ∧
      s.tp1 = round5 (candle.close + atrTotal history 14 * 1.5 * 1.5) ∧
      s.tp2 = round5 (candle.close + atrTotal history 14 * 1.5 * 2) ∧
      s.tp3 = round5 (candle.close + atrTotal history 14 * 1.5 * 3) ∧
      s.stop_loss ≤ s.entry_price ∧ s.tp1 ≤ s.tp2 ∧ s.tp2 ≤ s.tp3 ∧
      (0 < atrTotal history 14 →
        candle.close - atrTotal history 14 * 1.5 < candle.close ∧
        candle.close + atrTotal history 14 * 1.5 * 1.5 <
          candle.close + atrTotal history 14 * 1.5 * 2 ∧
        candle.close + atrTotal history 14 * 1.5 * 2 <
          candle.close + atrTotal history 14 * 1.5 * 3)) ∧
    (s.signal = "SELL" →
      s.entry_price = round5 candle.close ∧
      s.stop_loss = round5 (candle.close + atrTotal history 14 * 1.5) ∧
      s.tp1 = round5 (candle.close - atrTotal history 14 * 1.5 * 1.5) ∧
      s.tp2 = round5 (candle.close - atrTotal history 14 * 1.5 * 2) ∧
      s.tp3 = round5 (candle.close - atrTotal history 14 * 1.5 * 3) ∧
      s.entry_price ≤ s.stop_loss ∧ s.tp2 ≤ s.tp1 ∧ s.tp3 ≤ s.tp2 ∧
      (0 < atrTotal history 14 →
        candle.close < candle.close + atrTotal history 14 * 1.5 ∧
        candle.close - atrTotal history 14 * 1.5 * 2 <
          candle.close - atrTotal history 14 * 1.5 * 1.5 ∧
        candle.close - atrTotal history 14 * 1.5 * 3 <
          candle.close - atrTotal history 14 * 1.5 * 2)) := by
  have hatr : 0 ≤ atrTotal history 14 := atrTotal_nonneg history 14
  have hx : 0 ≤ atrTotal history 14 * 1.5 := by nlinarith
  simp only [onCandleClose] at h
  split_ifs at h with h1 h2 h3 h4 h5 <;> injection h with hs
  · subst hs
    refine ⟨hatr, Or.inl rfl, ?_, ?_⟩
    · intro _
      simp only [buySignal]
      rw [show candle.close - (candle.close - atrTotal history 14 * 1.5) =
        atrTotal history 14 * 1.5 by ring, abs_of_nonneg hx]
      refine ⟨by trivial, by trivial, by trivial, by trivial, by trivial, ?_, ?_, ?_, ?_⟩
      · exact round5_mono (by linarith)
      · exact round5_mono (by linarith)
      · exact round5_mono (by linarith)
      · intro hpos
        refine ⟨by linarith, by nlinarith, by nlinarith⟩
    · intro hS
      have hBS : ("BUY" : String) = "SELL" := hS
      exact absurd hBS (by decide)
  · subst hs
    refine ⟨hatr, Or.inr rfl, ?_, ?_⟩
    · intro hS
      have hSB : ("SELL" : String) = "BUY" := hS
      exact absurd hSB (by decide)
    · intro _
      simp only [sellSignal]
      rw [show candle.close - (candle.close + atrTotal history 14 * 1.5) =
        -(atrTotal history 14 * 1.5) by ring, abs_neg, abs_of_nonneg hx]
      refine ⟨by trivial, by trivial, by trivial, by trivial, by trivial, ?_, ?_, ?_, ?_⟩
      · exact round5_mono (by linarith)
      · exact round5_mono (by linarith)
      · exact round5_mono (by linarith)
      · intro hpos
        refine ⟨by linarith, by nlinarith, by nlinarith⟩

/-- Witness for the amended C7 at the clean BUY signal on `simpleHist`. -/
theorem claim_C7_amended_target_ladder_witness :
    0 ≤ atrTotal simpleHist 14 ∧
    ((onCandleClose "BTCUSDT" simpleHist simpleLast = CloseOutput.sig
        ⟨"BTCUSDT", "M5", "UPTREND", "BUY", 116, 229 / 2, 473 / 4, 119, 241 / 2, 85,
          "Uptrend (Price > SMA200) + Bullish Pattern"⟩) ∧
     (473 / 4 : ℚ) < 119 ∧ (119 : ℚ) < 241 / 2 ∧ (229 / 2 : ℚ) < 116) := by
  constructor
  · exact (claim_C7_amended_target_ladder "BTCUSDT" simpleHist simpleLast
      ⟨"BTCUSDT", "M5", "UPTREND", "BUY", 116, 229 / 2, 473 / 4, 119, 241 / 2, 85,
        "Uptrend (Price > SMA200) + Bullish Pattern"⟩ (by decide)).1
  · exact ⟨by decide, by decide, by decide, by decide⟩

/-- C4 counterexample: on `tinyHist` the Decision Engine emits a BUY whose
stop distance ATR(14) × 1.5 = 3/8000000 ≈ 4 × 10⁻⁷ is essentially zero,
yet no minimum-risk clamp is applied: the rounded targets all coincide
with the rounded entry price instead of being distinct from it. -/
theorem claim_C4_no_risk_clamp_in_decision_engine_ce :
    onCandleClose "EUR_USD" tinyHist tinyLast = CloseOutput.sig tinySig ∧
    tinySig.signal = "BUY" ∧
    atrTotal tinyHist 14 * 1.5 = 3 / 8000000 ∧
    tinySig.tp1 = tinySig.entry_price ∧ tinySig.tp2 = tinySig.entry_price ∧
    tinySig.tp3 = tinySig.entry_price ∧ tinySig.stop_loss = tinySig.entry_price := by
  decide

/-- C4 amended: the minimum synthetic risk clamp exists only in the webhook
`SignalEngine` (which replaces a risk of at most 10⁻⁵ by entry × 0.0005):
whenever it emits a BUY or SELL for a payload with positive close, the
risk it uses is positive — at least min(10⁻⁵, entry × 0.0005) — and the
pre-rounding first target is strictly on the profit side of the entry. The
live Decision Engine (`onCandleClose`) applies no such clamp; with
near-zero ATR its rounded targets need not differ from the entry. -/
theorem claim_C4_amended_clamp_only_in_webhook (d : WebhookData) (s : SignalOut)
    (h : SignalEngine.process d = WebhookOutput.sig s) (hc : 0 < d.close) :
    0 < SignalEngine.riskUsed d ∧
    min 0.00001 (d.close * 0.0005) ≤ SignalEngine.riskUsed d ∧
    (s.signal = "BUY" →
      s.tp1 = round5 (d.close + SignalEngine.riskUsed d * 1.5) ∧
      d.close < d.close + SignalEngine.riskUsed d * 1.5) ∧
    (s.signal = "SELL" →
      s.tp1 = round5 (d.close - SignalEngine.riskUsed d * 1.5) ∧
      d.close - SignalEngine.riskUsed d * 1.5 < d.close) := by
  have hpos : 0 < SignalEngine.riskUsed d := by
    unfold SignalEngine.riskUsed
    by_cases hcl : SignalEngine.riskPre d ≤ 0.00001
    · rw [if_pos hcl]
      nlinarith
    · rw [if_neg hcl]
      push_neg at hcl
      nlinarith
  have hmin : min 0.00001 (d.close * 0.0005) ≤ SignalEngine.riskUsed d := by
    unfold SignalEngine.riskUsed
    by_cases hcl : SignalEngine.riskPre d ≤ 0.00001
    · rw [if_pos hcl]
      exact min_le_right _ _
    · rw [if_neg hcl]
      push_neg at hcl
      exact le_trans (min_le_left _ _) (le_of_lt hcl)
  simp only [SignalEngine.process] at h
  split_ifs at h with h1 h2 h3 h4 h5 h6 <;> injection h with hs <;> subst hs
  · refine ⟨hpos, hmin, fun _ => ⟨rfl, by nlinarith⟩, fun hS => ?_⟩
    exact absurd (show ("BUY" : String) = "SELL" from hS) (by decide)
  · exact absurd rfl h5
  · exact absurd h6 (by decide)
  · refine ⟨hpos, hmin, fun hB => ?_, fun _ => ⟨rfl, by nlinarith⟩⟩
    exact absurd (show ("SELL" : String) = "BUY" from hB) (by decide)

/-- A concrete TradingView payload that makes the webhook engine emit a
BUY: uptrend via SMAs, reversal flag set, stop at the candle low. -/
def wd4 : WebhookData :=
  ⟨"EURUSD", 11 / 10, 12 / 10, 105 / 100, some (109 / 100), some 1, none, true,
    some "Bullish Engulfing"⟩

/-- The signal the webhook engine emits for `wd4`. -/
def ws4 : SignalOut :=
  ⟨"EURUSD", "M5", "UPTREND", "BUY", 11 / 10, 105 / 100, 47 / 40, 12 / 10, 5 / 4, 90,
    "UPTREND confirmed + Bullish Engulfing + Risk " ++ toString ((1 : ℚ) / 20)⟩

/-- Witness for the amended C4 at the concrete BUY payload `wd4`. -/
theorem claim_C4_amended_clamp_only_in_webhook_witness :
    0 < SignalEngine.riskUsed wd4 ∧
    min 0.00001 (wd4.close * 0.0005) ≤ SignalEngine.riskUsed wd4 ∧
    (ws4.signal = "BUY" →
      ws4.tp1 = round5 (wd4.close + SignalEngine.riskUsed wd4 * 1.5) ∧
      wd4.close < wd4.close + SignalEngine.riskUsed wd4 * 1.5) ∧
    (ws4.signal = "SELL" →
      ws4.tp1 = round5 (wd4.close - SignalEngine.riskUsed wd4 * 1.5) ∧
      wd4.close - SignalEngine.riskUsed wd4 * 1.5 < wd4.close) :=
  claim_C4_amended_clamp_only_in_webhook wd4 ws4 (by decide) (by decide)
